import Mathlib

/-!
Shallow embedding of the hardhat contract-verification workflow:

* `packages/hardhat-verify/src/internal/tasks/etherscan.ts` — the Etherscan
  verification subtasks (argument resolution, contract-information
  resolution, minimal-input reduction, submission attempts, and the
  orchestrating workflow);
* `packages/hardhat-verify/src/index.ts` — the top-level `verify` meta-task
  that runs every enabled verification subtask;
* `packages/hardhat-ledger/src/internal/cache.ts` — the ledger credential
  file cache.

Effectful TypeScript is modelled as pure functions over explicit
environments: every call into an external collaborator (chain provider,
verification API, artifact store, compile subtasks, file system) is an
environment field holding the value that call would produce, and the
observable actions of a run are recorded in an event trace.
-/

deriving instance DecidableEq for Except

/-- Errors raised by collaborator modules that the embedded tasks call into
(constructor-argument resolution, library modules, inferred-mode contract
extraction, library information, ABI argument encoding). The embedding only
needs that they are distinct from the errors the tasks construct
themselves. -/
inductive CollaboratorError
  | invalidConstructorArguments
  | constructorModule (message : String)
  | librariesModule (message : String)
  | inferredNotFound (network : String) (versions : List String)
  | inferredAmbiguous (network : String) (fqns : List String)
  | libraryResolution (message : String)
  | encoding (message : String)
deriving DecidableEq

/-- Typed errors thrown by the verification tasks, mirroring the
`internal/errors.ts` constructors with the payloads passed at the call
sites in `internal/tasks/etherscan.ts`. -/
inductive VerifyError
  | missingAddress
  | invalidAddress (address : String)
  | invalidContractName (name : String)
  | compilerVersionsMismatch (configuredVersions : List String)
      (bytecodeVersion : Option String) (network : String)
  | contractNotFound (fqn : String)
  | buildInfoNotFound (fqn : String)
  | buildInfoCompilerVersionMismatch (fqn : String)
      (bytecodeVersion : Option String) (versionRange : Bool)
      (buildInfoVersion : String) (network : String)
  | deployedBytecodeMismatch (network : String) (fqn : String)
  | unexpectedNumberOfFiles
  | verificationAPIUnexpectedMessage (message : String)
  | contractVerificationFailed (message : String)
      (undetectableLibraries : List String)
  | collaboratorError (e : CollaboratorError)
deriving DecidableEq

/-- Whether an error is a `CompilerVersionsMismatchError`, whatever its
payload. -/
def VerifyError.isCompilerVersionsMismatch : VerifyError → Bool
  | .compilerVersionsMismatch _ _ _ => true
  | _ => false

/-- Classifier used to state that a run outcome is (or is not) a
`CompilerVersionsMismatchError`. -/
def outcomeIsCompilerVersionsMismatch : Except VerifyError Unit → Bool
  | .error e => e.isCompilerVersionsMismatch
  | .ok _ => false

/-- A solc standard-JSON compiler input, reduced to the source files it
covers; the embedding never inspects its contents. -/
structure CompilerInput where
  sources : List String
deriving DecidableEq

/-- The compiled output recorded for one contract in a build info: its ABI
descriptors and (modelled from the spec, §4.1/§4.3) the compiled runtime
bytecode already in normalized comparison form — metadata stripped and
library placeholders zeroed. -/
structure ContractOutput where
  abi : List String
  normalizedBytecode : String
deriving DecidableEq

/-- A build info entry as the resolver consumes it: compiler versions, the
full compiler input used at deploy time, and per-fully-qualified-name
contract outputs. -/
structure BuildInfo where
  solcVersion : String
  solcLongVersion : String
  input : CompilerInput
  output : List (String × ContractOutput)
deriving DecidableEq

/-- Deployed bytecode as consumed by the workflow. Modelled from the spec
(§3, §4.1): the decoded exact compiler-version tag when present, whether
the metadata encodes only a version range, the OVM heuristic flag, and the
normalized comparison form of the code. -/
structure Bytecode where
  version : Option String
  versionRange : Bool
  ovm : Bool
  normalizedCode : String
deriving DecidableEq

def Bytecode.isOvm (b : Bytecode) : Bool := b.ovm

def Bytecode.getVersion (b : Bytecode) : Option String := b.version

def Bytecode.hasVersionRange (b : Bytecode) : Bool := b.versionRange

/-- Modelled from the spec (§4.2, `Bytecode.getMatchingVersions` lives in
`internal/solc/bytecode.ts`, which is not among the provided sources): if
the metadata encodes an exact compiler version, return the subset of the
configured versions equal to it; if it encodes only a range or no version,
return all configured versions. -/
def Bytecode.getMatchingVersions (b : Bytecode) (configured : List String) :
    List String :=
  match b.version, b.versionRange with
  | some v, false => configured.filter (fun c => c == v)
  | _, _ => configured

/-- The resolved contract match (`ContractInformation` in
`internal/solc/artifacts.ts`). -/
structure ContractInformation where
  compilerInput : CompilerInput
  solcVersion : String
  solcLongVersion : String
  sourceName : String
  contractName : String
  abi : List String
deriving DecidableEq

/-- Library data produced by `getLibraryInformation`: the library slots
whose address cannot be read off the runtime bytecode, and the resolved
linking table. -/
structure LibraryInformation where
  undetectableLibraries : List String
  libraries : List (String × List (String × String))
deriving DecidableEq

/-- `ExtendedContractInformation`: the contract information merged with its
library information, as built by the get-contract-information subtask. -/
structure ExtendedContractInformation extends ContractInformation,
    LibraryInformation
deriving DecidableEq

/-- A classified verification status as returned by the Etherscan client's
`getVerificationStatus`. Modelled from the spec (§4.6, `§6`): the service
message together with whether it matches a recognized success pattern
(`isSuccess`) or a recognized failure pattern (`isFailure`); the pattern
matching itself lives in `internal/etherscan.ts`, which is not among the
provided sources. -/
structure VerificationStatus where
  message : String
  success : Bool
  failure : Bool
deriving DecidableEq

def VerificationStatus.isSuccess (s : VerificationStatus) : Bool := s.success

def VerificationStatus.isFailure (s : VerificationStatus) : Bool := s.failure

/-- The `VerificationResponse` returned by the attempt-verification
subtask. -/
structure VerificationResponse where
  success : Bool
  message : String
deriving DecidableEq

/-- Which compiler input a submission used: the reduced single-file input
or the full multi-file input from the build info. -/
inductive InputKind
  | minimal
  | full
deriving DecidableEq

/-- Observable actions of one Etherscan verification run, in order:
querying the service's verification registry (`isVerified`), fetching the
deployed bytecode from the chain, resolving the matching contract from the
build artifacts, submitting a compiler input to the service, sleeping a
fixed number of milliseconds, and polling the verification status. -/
inductive OEvent
  | isVerifiedQuery
  | bytecodeFetch
  | contractResolution
  | submit (kind : InputKind)
  | sleepMs (ms : Nat)
  | statusPoll (kind : InputKind)
deriving DecidableEq

def isPoll : OEvent → Bool
  | .statusPoll _ => true
  | _ => false

def isSleep700 : OEvent → Bool
  | .sleepMs 700 => true
  | _ => false

/-- Helper for `pollsAfterSleep`: walks the trace remembering the previous
event and requires each status poll to be immediately preceded by a 700 ms
sleep. -/
def pollsAfterSleepGo (prev : OEvent) : List OEvent → Bool
  | [] => true
  | e :: rest => (!(isPoll e) || isSleep700 prev) && pollsAfterSleepGo e rest

/-- Holds of a trace when no status poll is its first event and every
status poll is immediately preceded by a 700 ms sleep. -/
def pollsAfterSleep : List OEvent → Bool
  | [] => true
  | e :: rest => !(isPoll e) && pollsAfterSleepGo e rest

/-- The sequence of submissions recorded in a trace, by input kind. -/
def submissions (events : List OEvent) : List InputKind :=
  events.filterMap (fun e =>
    match e with
    | .submit k => some k
    | _ => none)

def isHexDigit (c : Char) : Bool :=
  c.isDigit || ('a' ≤ c && c ≤ 'f') || ('A' ≤ c && c ≤ 'F')

/-- Modelled from the spec (§7: a syntactically invalid address is an
input error; the check itself is `isAddress` from the external
`@ethersproject/address` package): a 0x-tagged string of 40 hexadecimal
digits. -/
def isAddress (s : String) : Bool :=
  match s.data with
  | '0' :: 'x' :: rest => rest.length == 40 && rest.all isHexDigit
  | _ => false

/-- Modelled from the spec (glossary: a fully qualified contract name is
`sourceFilePath:ContractName`; the check is `isFullyQualifiedName` from
`hardhat/utils/contract-names`, not among the provided sources): the name
contains a colon separating the source path from the contract name. -/
def isFullyQualifiedName (name : String) : Bool :=
  name.data.contains ':'

/-- Modelled from the spec (glossary): the source-file part of a fully
qualified name, up to the colon. -/
def fqnSourceName (fqn : String) : String :=
  String.mk (fqn.data.takeWhile (fun c => c != ':'))

/-- Modelled from the spec (glossary): the contract part of a fully
qualified name, after the colon. -/
def fqnContractName (fqn : String) : String :=
  String.mk ((fqn.data.dropWhile (fun c => c != ':')).drop 1)

/-- A user-supplied library-name-to-address mapping. -/
def LibraryToAddress : Type := List (String × String)

instance : DecidableEq LibraryToAddress :=
  inferInstanceAs (DecidableEq (List (String × String)))

/-- The `libraries` task argument: either already an object (when the
subtask is invoked programmatically) or a module path / `undefined` to be
resolved by `resolveLibraries`. -/
inductive LibrariesTaskArg
  | objectArg (libs : LibraryToAddress)
  | moduleArg (path : Option String)
deriving DecidableEq

/-- The raw arguments of the Etherscan verification subtask
(`VerifyTaskArgs`). -/
structure VerifyTaskArgs where
  address : Option String
  constructorArgsParams : List String
  constructorArgsModule : Option String
  libraries : LibrariesTaskArg
  contract : Option String
deriving DecidableEq

/-- The parsed verification arguments (`VerificationArgs`). -/
structure VerificationArgs where
  address : String
  constructorArgs : List String
  libraries : LibraryToAddress
  contractFQN : Option String
deriving DecidableEq

/-- Results of the collaborator calls made during argument resolution:
`resolveConstructorArguments` and `resolveLibraries` (both in
`internal/utilities.ts`). -/
structure ResolveEnv where
  constructorArgsResult : Except CollaboratorError (List String)
  librariesResult : Except CollaboratorError LibraryToAddress
deriving DecidableEq

/-- The `verify:etherscan:resolve-arguments` subtask: reject a missing
address, then a syntactically invalid address, then a contract name that
is not fully qualified; afterwards resolve the constructor arguments and
the libraries (used directly when already an object, resolved from a
module otherwise). -/
def resolveArguments (env : ResolveEnv) (args : VerifyTaskArgs) :
    Except VerifyError VerificationArgs :=
  match args.address with
  | none => .error .missingAddress
  | some address =>
    if !isAddress address then .error (.invalidAddress address)
    else
      let contractCheck : Except VerifyError Unit :=
        match args.contract with
        | some c =>
          if !isFullyQualifiedName c then .error (.invalidContractName c)
          else .ok ()
        | none => .ok ()
      match contractCheck with
      | .error e => .error e
      | .ok _ =>
        match env.constructorArgsResult with
        | .error e => .error (.collaboratorError e)
        | .ok constructorArgs =>
          let librariesResult : Except CollaboratorError LibraryToAddress :=
            match args.libraries with
            | .objectArg libs => .ok libs
            | .moduleArg _ => env.librariesResult
          match librariesResult with
          | .error e => .error (.collaboratorError e)
          | .ok libraries =>
            .ok { address := address, constructorArgs := constructorArgs,
                  libraries := libraries, contractFQN := args.contract }

/-- Results of the collaborator calls made while resolving contract
information: the artifact-store lookups, the inferred-mode extraction
(`extractInferredContractInformation`) and the library information
(`getLibraryInformation`), both in `internal/solc/artifacts.ts`. -/
structure ContractInfoEnv where
  artifactExists : Bool
  buildInfo : Option BuildInfo
  inferredResult : Except CollaboratorError ContractInformation
  libraryInfoResult : Except CollaboratorError LibraryInformation
deriving DecidableEq

/-- Modelled from the spec (§4.3 named mode;
`extractMatchingContractInformation` lives in `internal/solc/artifacts.ts`,
not among the provided sources): look the fully qualified name up in the
build info output, compare its normalized compiled bytecode with the
deployed normalized bytecode, and return the contract information on a
match, null otherwise. -/
def extractMatchingContractInformation (fqn : String) (buildInfo : BuildInfo)
    (deployedBytecode : Bytecode) : Option ContractInformation :=
  match buildInfo.output.find? (fun p => p.1 == fqn) with
  | some (_, contractOutput) =>
    if contractOutput.normalizedBytecode == deployedBytecode.normalizedCode then
      some { compilerInput := buildInfo.input,
             solcVersion := buildInfo.solcVersion,
             solcLongVersion := buildInfo.solcLongVersion,
             sourceName := fqnSourceName fqn,
             contractName := fqnContractName fqn,
             abi := contractOutput.abi }
    else none
  | none => none

/-- The `contractInformation` computed by the
`verify:etherscan:get-contract-information` subtask before library
information is merged in: the named-mode lookup/checks when a fully
qualified name is given, the inferred-mode extraction otherwise. -/
def namedOrInferredInformation (env : ContractInfoEnv) (network : String)
    (contractFQN : Option String) (deployedBytecode : Bytecode)
    (matchingCompilerVersions : List String) :
    Except VerifyError ContractInformation :=
  match contractFQN with
  | some fqn =>
    if !env.artifactExists then .error (.contractNotFound fqn)
    else
      match env.buildInfo with
      | none => .error (.buildInfoNotFound fqn)
      | some buildInfo =>
        if !(matchingCompilerVersions.contains buildInfo.solcVersion) &&
            !deployedBytecode.isOvm then
          .error (.buildInfoCompilerVersionMismatch fqn
            deployedBytecode.getVersion deployedBytecode.hasVersionRange
            buildInfo.solcVersion network)
        else
          match extractMatchingContractInformation fqn buildInfo
              deployedBytecode with
          | none => .error (.deployedBytecodeMismatch network fqn)
          | some info => .ok info
  | none =>
    match env.inferredResult with
    | .error e => .error (.collaboratorError e)
    | .ok info => .ok info

/-- The `verify:etherscan:get-contract-information` subtask. In named mode:
fail if the artifact is absent, then if its build info is missing, then if
the build info compiler version is not among the matching versions (unless
the bytecode is OVM), then if the named contract's bytecode does not match
the deployed bytecode. In inferred mode: delegate to
`extractInferredContractInformation`. Either way, merge in the library
information. -/
def getContractInformation (env : ContractInfoEnv) (network : String)
    (contractFQN : Option String) (deployedBytecode : Bytecode)
    (matchingCompilerVersions : List String) :
    Except VerifyError ExtendedContractInformation :=
  match namedOrInferredInformation env network contractFQN deployedBytecode
      matchingCompilerVersions with
  | .error e => .error e
  | .ok info =>
    match env.libraryInfoResult with
    | .error e => .error (.collaboratorError e)
    | .ok libraryInformation =>
      .ok { toContractInformation := info,
            undetectableLibraries := libraryInformation.undetectableLibraries,
            libraries := libraryInformation.libraries }

/-- A resolved source file of the dependency graph, as far as the reducer
inspects it. -/
structure ResolvedFile where
  sourceName : String
deriving DecidableEq

/-- Results of the compile subtasks the minimal-input reducer delegates to:
the resolved files of the dependency graph rooted at the target source, and
the compiler input computed for the target file's compilation job. -/
structure MinimalInputEnv where
  resolvedFiles : List ResolvedFile
  compilationJobInput : CompilerInput
deriving DecidableEq

/-- The `verify:etherscan:get-minimal-input` subtask: build the dependency
graph rooted at the target source name, keep the resolved files whose
source name equals the target, throw `UnexpectedNumberOfFilesError` unless
exactly one remains, and otherwise return (a deep clone of) the compiler
input of that file's compilation job. -/
def getMinimalInput (env : MinimalInputEnv) (sourceName : String) :
    Except VerifyError CompilerInput :=
  let resolvedFiles :=
    env.resolvedFiles.filter (fun f => f.sourceName == sourceName)
  if resolvedFiles.length != 1 then .error .unexpectedNumberOfFiles
  else .ok env.compilationJobInput

/-- Results of the verification-service calls made during one submission
attempt: the tracking identifier returned by `verify` and the classified
status returned by `getVerificationStatus`. -/
structure AttemptEnv where
  guid : String
  status : VerificationStatus
deriving DecidableEq

/-- The events of one submission attempt: submit, then a fixed 700 ms
sleep, then one status poll. -/
def attemptEvents (kind : InputKind) : List OEvent :=
  [OEvent.submit kind, OEvent.sleepMs 700, OEvent.statusPoll kind]

/-- The `verify:etherscan:attempt-verification` subtask: submit the
compiler input, wait 700 ms, poll the status once; if the status is
neither a recognized failure nor a recognized success, throw
`VerificationAPIUnexpectedMessageError` with the service message;
otherwise report whether the status is a success, with its message. -/
def attemptVerification (kind : InputKind) (env : AttemptEnv) :
    List OEvent × Except VerifyError VerificationResponse :=
  (attemptEvents kind,
   if !(env.status.isFailure || env.status.isSuccess) then
     .error (.verificationAPIUnexpectedMessage env.status.message)
   else
     .ok { success := env.status.isSuccess, message := env.status.message })

/-- The whole environment of one run of the `verify:etherscan` subtask:
the raw task arguments and the values every collaborator call would
produce, in program order. -/
structure OrchEnv where
  args : VerifyTaskArgs
  resolveEnv : ResolveEnv
  networkName : String
  isVerified : Bool
  configCompilerVersions : List String
  deployedBytecode : Bytecode
  contractInfoEnv : ContractInfoEnv
  minimalEnv : MinimalInputEnv
  encodeResult : Except CollaboratorError String
  minimalAttempt : AttemptEnv
  fullAttempt : AttemptEnv
deriving DecidableEq

/-- The two-stage submission of the `verify:etherscan` subtask: attempt
with the minimal input; on a reported failure attempt once more with the
full compiler input; on a second reported failure throw
`ContractVerificationFailedError` with the last service message and the
undetectable libraries; a success at either stage returns immediately. An
attempt that throws propagates. -/
def submissionStage (env : OrchEnv) (info : ExtendedContractInformation) :
    List OEvent × Except VerifyError Unit :=
  match (attemptVerification .minimal env.minimalAttempt).2 with
  | .error e => ((attemptVerification .minimal env.minimalAttempt).1, .error e)
  | .ok response1 =>
    if response1.success then
      ((attemptVerification .minimal env.minimalAttempt).1, .ok ())
    else
      match (attemptVerification .full env.fullAttempt).2 with
      | .error e =>
        ((attemptVerification .minimal env.minimalAttempt).1 ++
          (attemptVerification .full env.fullAttempt).1, .error e)
      | .ok response2 =>
        if response2.success then
          ((attemptVerification .minimal env.minimalAttempt).1 ++
            (attemptVerification .full env.fullAttempt).1, .ok ())
        else
          ((attemptVerification .minimal env.minimalAttempt).1 ++
            (attemptVerification .full env.fullAttempt).1,
           .error (.contractVerificationFailed response2.message
             info.undetectableLibraries))

/-- The tail of the `verify:etherscan` subtask after the compiler-version
check: resolve the contract information, compute the minimal input, encode
the constructor arguments, then run the two-stage submission. -/
def contractStage (env : OrchEnv) (args : VerificationArgs) :
    List OEvent × Except VerifyError Unit :=
  match getContractInformation env.contractInfoEnv env.networkName
      args.contractFQN env.deployedBytecode
      (env.deployedBytecode.getMatchingVersions env.configCompilerVersions) with
  | .error e => ([OEvent.contractResolution], .error e)
  | .ok info =>
    match getMinimalInput env.minimalEnv info.sourceName with
    | .error e => ([OEvent.contractResolution], .error e)
    | .ok _minimalInput =>
      match env.encodeResult with
      | .error e => ([OEvent.contractResolution], .error (.collaboratorError e))
      | .ok _encodedConstructorArguments =>
        (OEvent.contractResolution :: (submissionStage env info).1,
         (submissionStage env info).2)

/-- The tail of the `verify:etherscan` subtask after argument resolution:
query the service's verification registry and stop successfully if the
address is already verified; otherwise fetch the deployed bytecode, throw
`CompilerVersionsMismatchError` when no configured compiler version
matches it and it is not OVM bytecode, and otherwise continue with
contract resolution and submission. -/
def afterResolve (env : OrchEnv) (args : VerificationArgs) :
    List OEvent × Except VerifyError Unit :=
  if env.isVerified then ([OEvent.isVerifiedQuery], .ok ())
  else
    if (env.deployedBytecode.getMatchingVersions
          env.configCompilerVersions).length == 0 &&
        !env.deployedBytecode.isOvm then
      ([OEvent.isVerifiedQuery, OEvent.bytecodeFetch],
       .error (.compilerVersionsMismatch env.configCompilerVersions
         env.deployedBytecode.getVersion env.networkName))
    else
      (OEvent.isVerifiedQuery :: OEvent.bytecodeFetch ::
        (contractStage env args).1, (contractStage env args).2)

/-- The `verify:etherscan` subtask: resolve the raw arguments (an argument
error aborts before any network interaction), then run the rest of the
workflow. -/
def verifyEtherscan (env : OrchEnv) : List OEvent × Except VerifyError Unit :=
  match resolveArguments env.resolveEnv env.args with
  | .error e => ([], .error e)
  | .ok args => afterResolve env args

/-- An error value thrown by a verification subtask, as the top-level
`verify` task stores it (`HardhatVerifyError`); only carried, never
inspected. -/
structure HardhatVerifyError where
  message : String
deriving DecidableEq

/-- The mutable state of the `verify` task's loop: the subtasks run so far,
the per-subtask error record, and the `hasErrors` flag. -/
structure VerifyLoopState where
  ran : List String
  errors : List (String × HardhatVerifyError)
  hasErrors : Bool
deriving DecidableEq

/-- Assignment `record[key] = value` on an association list: replace the
binding when the key is present, append it otherwise. -/
def recordSet (record : List (String × HardhatVerifyError)) (key : String)
    (value : HardhatVerifyError) : List (String × HardhatVerifyError) :=
  match record with
  | [] => [(key, value)]
  | (k, v) :: rest =>
    if k == key then (key, value) :: rest else (k, v) :: recordSet rest key value

/-- One iteration of the `verify` task's loop: run the subtask; on a throw,
record the error under the subtask's name and set `hasErrors`. -/
def verifyLoopStep (st : VerifyLoopState)
    (sub : String × Except HardhatVerifyError Unit) : VerifyLoopState :=
  match sub.2 with
  | .ok _ => { st with ran := st.ran ++ [sub.1] }
  | .error e =>
    { ran := st.ran ++ [sub.1],
      errors := recordSet st.errors sub.1 e,
      hasErrors := true }

/-- The top-level `verify` meta-task's loop over the enabled verification
subtasks (each given here with the outcome running it would produce),
starting from the empty state; the process exits with failure exactly when
the final `hasErrors` flag is set. -/
def taskVerify (subtasks : List (String × Except HardhatVerifyError Unit)) :
    VerifyLoopState :=
  subtasks.foldl verifyLoopStep { ran := [], errors := [], hasErrors := false }

/-- Whether a subtask outcome is a throw. -/
def isErrorResult (r : Except HardhatVerifyError Unit) : Bool :=
  match r with
  | .error _ => true
  | .ok _ => false

/-- The error entry a subtask contributes to the error record, when it
throws. -/
def errOf (p : String × Except HardhatVerifyError Unit) :
    Option (String × HardhatVerifyError) :=
  match p.2 with
  | .error e => some (p.1, e)
  | .ok _ => none

/-- File-system environment of the ledger credential cache: the outcome of
`fs.ensureDir` on the cache directory (run by `getLedgerCacheFile` before
the `try` block; `none` means it succeeded), whether
`fs.access(file, F_OK)` succeeds, and the outcome of `fs.readJSON`. -/
structure LedgerFs (α : Type) where
  ensureDirError : Option String
  fileAccessible : Bool
  readJSONResult : Except String α

namespace LedgerCache

/-- `read` from `hardhat-ledger/src/internal/cache.ts`: resolve the cache
file path — which runs `fs.ensureDir` on the cache directories and can
therefore throw — and then, inside a `try/catch`, check that the file is
accessible and parse it; any error raised inside the `try` block makes the
function return `undefined` (`none`). -/
def read {α : Type} (fs : LedgerFs α) : Except String (Option α) :=
  match fs.ensureDirError with
  | some e => .error e
  | none =>
    if fs.fileAccessible then
      match fs.readJSONResult with
      | .ok file => .ok (some file)
      | .error _ => .ok none
    else .ok none

end LedgerCache

-- ## Concrete fixtures used by the witnesses

def addrW : String := "0x1234567890abcdef1234567890abcdef12345678"

def statusPassW : VerificationStatus :=
  { message := "Pass - Verified", success := true, failure := false }

def statusFailW : VerificationStatus :=
  { message := "Fail - Unable to verify", success := false, failure := true }

def statusOddW : VerificationStatus :=
  { message := "Unknown response", success := false, failure := false }

def inputW : CompilerInput := { sources := ["contracts/A.sol"] }

def outputW : ContractOutput :=
  { abi := ["constructor()"], normalizedBytecode := "6001600155" }

def buildInfoW : BuildInfo :=
  { solcVersion := "0.8.19",
    solcLongVersion := "0.8.19+commit.7dd6d404",
    input := inputW,
    output := [("contracts/A.sol:A", outputW)] }

def bytecodeW : Bytecode :=
  { version := some "0.8.19", versionRange := false, ovm := false,
    normalizedCode := "6001600155" }

def libraryInfoW : LibraryInformation :=
  { undetectableLibraries := ["contracts/Lib.sol:L"], libraries := [] }

def contractInfoEnvW : ContractInfoEnv :=
  { artifactExists := true,
    buildInfo := some buildInfoW,
    inferredResult := .error (.inferredNotFound "mainnet" ["0.8.19"]),
    libraryInfoResult := .ok libraryInfoW }

def resolveEnvW : ResolveEnv :=
  { constructorArgsResult := .ok [], librariesResult := .ok [] }

def argsW : VerifyTaskArgs :=
  { address := some addrW, constructorArgsParams := [],
    constructorArgsModule := none, libraries := .objectArg [],
    contract := some "contracts/A.sol:A" }

def parsedArgsW : VerificationArgs :=
  { address := addrW, constructorArgs := [], libraries := [],
    contractFQN := some "contracts/A.sol:A" }

def contractInfoW : ExtendedContractInformation :=
  { compilerInput := inputW,
    solcVersion := "0.8.19",
    solcLongVersion := "0.8.19+commit.7dd6d404",
    sourceName := "contracts/A.sol",
    contractName := "A",
    abi := ["constructor()"],
    undetectableLibraries := ["contracts/Lib.sol:L"],
    libraries := [] }

def minimalEnvW : MinimalInputEnv :=
  { resolvedFiles := [{ sourceName := "contracts/A.sol" }],
    compilationJobInput := inputW }

/-- Orchestrator environment where the minimal-input attempt reports
failure and the full-input attempt succeeds. -/
def envW : OrchEnv :=
  { args := argsW, resolveEnv := resolveEnvW, networkName := "mainnet",
    isVerified := false, configCompilerVersions := ["0.8.19"],
    deployedBytecode := bytecodeW, contractInfoEnv := contractInfoEnvW,
    minimalEnv := minimalEnvW, encodeResult := .ok "",
    minimalAttempt := { guid := "guid-1", status := statusFailW },
    fullAttempt := { guid := "guid-2", status := statusPassW } }

/-- Environment whose configured compiler versions cannot match the
deployed bytecode. -/
def envM : OrchEnv :=
  { envW with configCompilerVersions := ["0.8.20"] }

/-- Environment with OVM bytecode and no matching compiler version. -/
def envO : OrchEnv :=
  { envW with
    configCompilerVersions := ["0.8.20"],
    deployedBytecode := { bytecodeW with ovm := true } }

/-- Environment whose address is already verified on the service. -/
def envV : OrchEnv :=
  { envW with isVerified := true }

/-- Environment invoked without an address argument. -/
def envNoAddr : OrchEnv :=
  { envW with args := { argsW with address := none } }

def contractInfoEnvNoArtifact : ContractInfoEnv :=
  { contractInfoEnvW with artifactExists := false }

def contractInfoEnvNoBuildInfo : ContractInfoEnv :=
  { contractInfoEnvW with buildInfo := none }

/-- Deployed bytecode whose normalized form matches no compiled output. -/
def bytecodeBadW : Bytecode :=
  { bytecodeW with normalizedCode := "00dead00" }

def minimalEnvB : MinimalInputEnv :=
  { resolvedFiles := [{ sourceName := "contracts/B.sol" }],
    compilationJobInput := inputW }

def subsW : List (String × Except HardhatVerifyError Unit) :=
  [("verify:etherscan", .error { message := "etherscan exploded" }),
   ("verify:sourcify", .ok ())]

-- ## Theorems

/-- C10 counterexample: the claim says the cache read never throws for any
state of the file system, but `getLedgerCacheFile` — which runs
`fs.ensureDir` on the cache directory — is called before the `try` block,
so on a file system where the directory cannot be created (here: the cache
path is occupied by a regular file) `read` propagates the error instead of
returning `undefined`. -/
theorem ledger_read_throws_counterexample :
    LedgerCache.read (α := Nat)
      { ensureDirError := some "EEXIST: file exists",
        fileAccessible := false,
        readJSONResult := .error "" } =
      .error "EEXIST: file exists" := rfl

/-- C10 amended: once the cache directory has been resolved and created
(`fs.ensureDir` succeeded), `read` never throws — an inaccessible or
unparseable cache file yields `undefined` (`none`), and a readable file
yields its parsed contents. -/
theorem ledger_read_no_throw_after_dir {α : Type} (fs : LedgerFs α)
    (h : fs.ensureDirError = none) :
    (fs.fileAccessible = false → LedgerCache.read fs = .ok none) ∧
    (∀ msg, fs.readJSONResult = .error msg →
      LedgerCache.read fs = .ok none) ∧
    (∀ v, fs.fileAccessible = true → fs.readJSONResult = .ok v →
      LedgerCache.read fs = .ok (some v)) ∧
    (∃ r, LedgerCache.read fs = .ok r) := by
  unfold LedgerCache.read
  rw [h]
  refine ⟨fun hacc => by simp [hacc], fun msg hr => ?_, fun v hacc hr => ?_, ?_⟩
  · cases hacc : fs.fileAccessible <;> simp [hacc, hr]
  · simp [hacc, hr]
  · cases hacc : fs.fileAccessible
    · exact ⟨none, by simp [hacc]⟩
    · cases hr : fs.readJSONResult with
      | ok v => exact ⟨some v, by simp [hacc, hr]⟩
      | error msg => exact ⟨none, by simp [hacc, hr]⟩

/-- C10 witness: a concrete file system with the cache directory in place
but the cache file absent makes `read` return `undefined`. -/
theorem ledger_read_no_throw_after_dir_witness :
    LedgerCache.read (α := Nat)
      { ensureDirError := none, fileAccessible := false,
        readJSONResult := .error "ENOENT" } = .ok none :=
  (ledger_read_no_throw_after_dir _ rfl).1 rfl

/-- C2 counterexample: the claim says the minimal-input reducer itself
never reports failure, but when the dependency graph resolves no file (or
several files) with the target source name the reducer throws
`UnexpectedNumberOfFilesError` itself, before any submission attempt. -/
theorem minimal_input_reducer_counterexample :
    getMinimalInput { resolvedFiles := [], compilationJobInput := inputW }
      "contracts/A.sol" = .error .unexpectedNumberOfFiles := rfl

/-- C2 amended: the reducer returns the compiler input of the target
file's compilation job whenever the dependency graph resolves exactly one
file with the target source name; when it does not, the reducer itself
reports failure by throwing `UnexpectedNumberOfFilesError` — that is the
only failure it reports, and a submission failure is surfaced by the
subsequent attempt instead. -/
theorem minimal_input_reducer_behavior (env : MinimalInputEnv) (s : String) :
    ((env.resolvedFiles.filter (fun f => f.sourceName == s)).length = 1 →
      getMinimalInput env s = .ok env.compilationJobInput) ∧
    ((env.resolvedFiles.filter (fun f => f.sourceName == s)).length ≠ 1 →
      getMinimalInput env s = .error .unexpectedNumberOfFiles) := by
  unfold getMinimalInput
  constructor
  · intro h
    simp [h]
  · intro h
    simp [h]

/-- C2 witness for the amended claim: the reducer succeeds at a
single-file dependency graph and throws at an empty one. -/
theorem minimal_input_reducer_behavior_witness :
    getMinimalInput minimalEnvW "contracts/A.sol" = .ok inputW ∧
    getMinimalInput minimalEnvB "contracts/A.sol" =
      .error .unexpectedNumberOfFiles :=
  ⟨(minimal_input_reducer_behavior minimalEnvW "contracts/A.sol").1 (by rfl),
   (minimal_input_reducer_behavior minimalEnvB "contracts/A.sol").2 (by decide)⟩

/-- C5: when the polled verification status is neither a recognized
failure nor a recognized success, the attempt throws
`VerificationAPIUnexpectedMessageError` carrying the service message, after
exactly one status poll — it neither retries nor returns a success
response. -/
theorem attempt_unexpected_message (kind : InputKind) (env : AttemptEnv)
    (h : (env.status.isFailure || env.status.isSuccess) = false) :
    (attemptVerification kind env).2 =
      .error (.verificationAPIUnexpectedMessage env.status.message) ∧
    (attemptVerification kind env).1.countP isPoll = 1 := by
  constructor
  · simp [attemptVerification, h]
  · cases kind <;> rfl

/-- C6: no status poll ever happens right after submitting: in the trace
of every submission attempt, and of every whole verification run, a fixed
700 ms sleep immediately precedes each call to `getVerificationStatus`
(and in particular the first one). -/
theorem sleep_precedes_status_poll :
    (∀ kind env, pollsAfterSleep (attemptVerification kind env).1 = true) ∧
    (∀ env, pollsAfterSleep (verifyEtherscan env).1 = true) := by
  constructor
  · intro kind env
    cases kind <;> rfl
  · intro env
    unfold verifyEtherscan afterResolve contractStage submissionStage
      attemptVerification
    repeat' split
    all_goals rfl

/-- C7: input errors are raised during argument resolution and before any
network interaction: a missing address raises `MissingAddressError`, a
syntactically invalid address raises `InvalidAddressError`, a contract
name that is not fully qualified raises `InvalidContractNameError`, and
any argument-resolution error ends the run with an empty event trace — no
registry query, bytecode fetch, or submission happens. -/
theorem input_errors_before_network :
    (∀ env args, args.address = none →
      resolveArguments env args = .error .missingAddress) ∧
    (∀ env args a, args.address = some a → isAddress a = false →
      resolveArguments env args = .error (.invalidAddress a)) ∧
    (∀ env args a c, args.address = some a → isAddress a = true →
      args.contract = some c → isFullyQualifiedName c = false →
      resolveArguments env args = .error (.invalidContractName c)) ∧
    (∀ env e, resolveArguments env.resolveEnv env.args = .error e →
      verifyEtherscan env = ([], .error e)) := by
  refine ⟨?_, ?_, ?_, ?_⟩
  · intro env args h
    unfold resolveArguments
    rw [h]
  · intro env args a ha hia
    unfold resolveArguments
    rw [ha]
    simp [hia]
  · intro env args a c ha hia hc hfqn
    unfold resolveArguments
    rw [ha]
    simp [hia, hc, hfqn]
  · intro env e h
    unfold verifyEtherscan
    rw [h]

/-- C7 witness: the three input errors at concrete arguments, and a run
with a missing address that ends with an empty trace. -/
theorem input_errors_before_network_witness :
    resolveArguments resolveEnvW { argsW with address := none } =
      .error .missingAddress ∧
    resolveArguments resolveEnvW { argsW with address := some "0xZZ" } =
      .error (.invalidAddress "0xZZ") ∧
    resolveArguments resolveEnvW { argsW with contract := some "NoColonName" } =
      .error (.invalidContractName "NoColonName") ∧
    verifyEtherscan envNoAddr = ([], .error .missingAddress) :=
  ⟨input_errors_before_network.1 resolveEnvW _ rfl,
   input_errors_before_network.2.1 resolveEnvW _ "0xZZ" rfl (by rfl),
   input_errors_before_network.2.2.1 resolveEnvW _ addrW "NoColonName" rfl
     (by rfl) rfl (by rfl),
   input_errors_before_network.2.2.2 envNoAddr .missingAddress
     (input_errors_before_network.1 envNoAddr.resolveEnv envNoAddr.args rfl)⟩

/-- C8: the verification-registry query (`isVerified`) is the first
observable action of every run that passes argument resolution, and when
the address is already verified the run ends immediately and successfully
with no bytecode fetch, contract resolution, or submission. -/
theorem already_verified_short_circuit (env : OrchEnv)
    (args : VerificationArgs)
    (h : resolveArguments env.resolveEnv env.args = .ok args) :
    (verifyEtherscan env).1.head? = some OEvent.isVerifiedQuery ∧
    (env.isVerified = true →
      verifyEtherscan env = ([OEvent.isVerifiedQuery], .ok ())) := by
  have hrw : verifyEtherscan env = afterResolve env args := by
    unfold verifyEtherscan
    rw [h]
  rw [hrw]
  unfold afterResolve
  constructor
  · split
    · rfl
    · split <;> rfl
  · intro hv
    simp [hv]

/-- C8 witness: a run whose address the service reports as already
verified stops right after the registry query. -/
theorem already_verified_short_circuit_witness :
    verifyEtherscan envV = ([OEvent.isVerifiedQuery], .ok ()) :=
  (already_verified_short_circuit envV parsedArgsW (by rfl)).2 rfl

/-- Setting a key that is absent from an error record appends the new
binding. -/
lemma recordSet_fresh (record : List (String × HardhatVerifyError))
    (key : String) (value : HardhatVerifyError)
    (h : ∀ q ∈ record, q.1 ≠ key) :
    recordSet record key value = record ++ [(key, value)] := by
  induction record with
  | nil => rfl
  | cons hd tl ih =>
    obtain ⟨k, v⟩ := hd
    have hk : k ≠ key := h (k, v) (List.mem_cons_self _ _)
    unfold recordSet
    simp only [beq_eq_false_iff_ne.mpr hk, if_neg]
    rw [ih (fun q hq => h q (List.mem_cons_of_mem _ hq))]
    simp

/-- Characterization of the `verify` loop from an arbitrary start state
whose error record mentions none of the remaining subtask names, provided
those names are distinct. -/
lemma taskVerify_go (subs : List (String × Except HardhatVerifyError Unit)) :
    ∀ st : VerifyLoopState,
      (∀ p ∈ subs, ∀ q ∈ st.errors, q.1 ≠ p.1) →
      (subs.map Prod.fst).Nodup →
      List.foldl verifyLoopStep st subs =
        { ran := st.ran ++ subs.map Prod.fst,
          errors := st.errors ++ subs.filterMap errOf,
          hasErrors := st.hasErrors || subs.any (fun p => isErrorResult p.2) } := by
  induction subs with
  | nil =>
    intro st _ _
    simp
  | cons hd tl ih =>
    intro st hfresh hnd
    obtain ⟨n, r⟩ := hd
    have hndTl : (tl.map Prod.fst).Nodup := (List.nodup_cons.mp hnd).2
    have hnNotTl : n ∉ tl.map Prod.fst := (List.nodup_cons.mp hnd).1
    cases r with
    | ok u =>
      rw [List.foldl_cons]
      have hstep : verifyLoopStep st (n, Except.ok u) =
          { st with ran := st.ran ++ [n] } := rfl
      rw [hstep, ih { st with ran := st.ran ++ [n] }
        (fun p hp q hq => hfresh p (List.mem_cons_of_mem _ hp) q hq) hndTl]
      simp [errOf, isErrorResult]
    | error e =>
      rw [List.foldl_cons]
      have hstep : verifyLoopStep st (n, Except.error e) =
          { ran := st.ran ++ [n],
            errors := recordSet st.errors n e,
            hasErrors := true } := rfl
      rw [hstep]
      have hset : recordSet st.errors n e = st.errors ++ [(n, e)] :=
        recordSet_fresh st.errors n e
          (fun q hq => hfresh (n, Except.error e) (List.mem_cons_self _ _) q hq)
      have hfresh2 : ∀ p ∈ tl, ∀ q ∈ st.errors ++ [(n, e)], q.1 ≠ p.1 := by
        intro p hp q hq
        rcases List.mem_append.mp hq with hq1 | hq2
        · exact hfresh p (List.mem_cons_of_mem _ hp) q hq1
        · have hqe : q = (n, e) := by simpa using hq2
          subst hqe
          intro hcontra
          have hne : n = p.1 := hcontra
          exact hnNotTl (by rw [hne]; exact List.mem_map_of_mem Prod.fst hp)
      rw [ih { ran := st.ran ++ [n],
               errors := recordSet st.errors n e,
               hasErrors := true } (by simpa [hset] using hfresh2) hndTl]
      simp [hset, errOf, isErrorResult]

/-- C9: for every list of verification subtasks with distinct names, the
top-level `verify` task runs each subtask exactly once in order even when
earlier ones throw, collects thrown errors per subtask instead of aborting
the loop, and exits with failure exactly when at least one subtask
threw. -/
theorem verify_meta_task_collects_errors
    (subs : List (String × Except HardhatVerifyError Unit))
    (hnd : (subs.map Prod.fst).Nodup) :
    (taskVerify subs).ran = subs.map Prod.fst ∧
    (taskVerify subs).errors = subs.filterMap errOf ∧
    ((taskVerify subs).hasErrors = true ↔
      ∃ p ∈ subs, isErrorResult p.2 = true) := by
  unfold taskVerify
  rw [taskVerify_go subs _ (by intro p _ q hq; simp at hq) hnd]
  simp [List.any_eq_true]

/-- C9 witness: with an Etherscan subtask that throws followed by a
Sourcify subtask that succeeds, both run in order, the error is recorded
for the Etherscan subtask, and the process exits with failure. -/
theorem verify_meta_task_collects_errors_witness :
    (taskVerify subsW).ran = ["verify:etherscan", "verify:sourcify"] ∧
    (taskVerify subsW).errors =
      [("verify:etherscan", { message := "etherscan exploded" })] ∧
    (taskVerify subsW).hasErrors = true := by
  have h := verify_meta_task_collects_errors subsW (by decide)
  exact ⟨h.1, h.2.1,
    h.2.2.mpr ⟨("verify:etherscan", .error { message := "etherscan exploded" }),
      List.mem_cons_self _ _, rfl⟩⟩

/-- C4: in named mode, contract-information resolution fails with
`ContractNotFoundError` when no artifact exists for the name; with the
artifact present, with `BuildInfoNotFoundError` when its build info is
missing; with build info present, with
`BuildInfoCompilerVersionMismatchError` when the build info compiler
version is not among the matching versions and the bytecode is not OVM;
and with those checks passed, with `DeployedBytecodeMismatchError` when
the named contract's normalized compiled bytecode differs from the
deployed normalized bytecode — in that order. -/
theorem named_mode_error_order (env : ContractInfoEnv) (network : String)
    (fqn : String) (db : Bytecode) (versions : List String) :
    (env.artifactExists = false →
      getContractInformation env network (some fqn) db versions =
        .error (.contractNotFound fqn)) ∧
    (env.artifactExists = true → env.buildInfo = none →
      getContractInformation env network (some fqn) db versions =
        .error (.buildInfoNotFound fqn)) ∧
    (∀ bi, env.artifactExists = true → env.buildInfo = some bi →
      versions.contains bi.solcVersion = false → db.isOvm = false →
      getContractInformation env network (some fqn) db versions =
        .error (.buildInfoCompilerVersionMismatch fqn db.getVersion
          db.hasVersionRange bi.solcVersion network)) ∧
    (∀ bi out, env.artifactExists = true → env.buildInfo = some bi →
      (versions.contains bi.solcVersion = true ∨ db.isOvm = true) →
      bi.output.find? (fun p => p.1 == fqn) = some (fqn, out) →
      (out.normalizedBytecode == db.normalizedCode) = false →
      getContractInformation env network (some fqn) db versions =
        .error (.deployedBytecodeMismatch network fqn)) := by
  refine ⟨?_, ?_, ?_, ?_⟩
  · intro h
    simp [getContractInformation, namedOrInferredInformation, h]
  · intro h1 h2
    simp [getContractInformation, namedOrInferredInformation, h1, h2]
  · intro bi h1 h2 hcv hovm
    have hcv2 : bi.solcVersion ∉ versions := by simpa using hcv
    simp [getContractInformation, namedOrInferredInformation, h1, h2, hcv2,
      hovm]
  · intro bi out h1 h2 hver hfind hneq
    have hneq2 : out.normalizedBytecode ≠ db.normalizedCode := by
      simpa using hneq
    rcases hver with hv | hv
    · have hv2 : bi.solcVersion ∈ versions := by simpa using hv
      simp [getContractInformation, namedOrInferredInformation, h1, h2, hv2,
        extractMatchingContractInformation, hfind, hneq2]
    · simp [getContractInformation, namedOrInferredInformation, h1, h2, hv,
        extractMatchingContractInformation, hfind, hneq2]

/-- C4 witness: the four named-mode failures at concrete inputs, in
order. -/
theorem named_mode_error_order_witness :
    getContractInformation contractInfoEnvNoArtifact "mainnet"
      (some "contracts/A.sol:A") bytecodeW ["0.8.19"] =
      .error (.contractNotFound "contracts/A.sol:A") ∧
    getContractInformation contractInfoEnvNoBuildInfo "mainnet"
      (some "contracts/A.sol:A") bytecodeW ["0.8.19"] =
      .error (.buildInfoNotFound "contracts/A.sol:A") ∧
    getContractInformation contractInfoEnvW "mainnet"
      (some "contracts/A.sol:A") bytecodeW ["0.8.20"] =
      .error (.buildInfoCompilerVersionMismatch "contracts/A.sol:A"
        bytecodeW.getVersion bytecodeW.hasVersionRange "0.8.19" "mainnet") ∧
    getContractInformation contractInfoEnvW "mainnet"
      (some "contracts/A.sol:A") bytecodeBadW ["0.8.19"] =
      .error (.deployedBytecodeMismatch "mainnet" "contracts/A.sol:A") :=
  ⟨(named_mode_error_order contractInfoEnvNoArtifact "mainnet"
      "contracts/A.sol:A" bytecodeW ["0.8.19"]).1 rfl,
   (named_mode_error_order contractInfoEnvNoBuildInfo "mainnet"
      "contracts/A.sol:A" bytecodeW ["0.8.19"]).2.1 rfl rfl,
   (named_mode_error_order contractInfoEnvW "mainnet"
      "contracts/A.sol:A" bytecodeW ["0.8.20"]).2.2.1 buildInfoW rfl rfl
      (by decide) rfl,
   (named_mode_error_order contractInfoEnvW "mainnet"
      "contracts/A.sol:A" bytecodeBadW ["0.8.19"]).2.2.2 buildInfoW outputW
      rfl rfl (Or.inl (by decide)) (by decide) (by decide)⟩

/-- No error produced while resolving contract information is a
`CompilerVersionsMismatchError`. -/
lemma namedOrInferredInformation_error_not_cvm (env : ContractInfoEnv)
    (network : String) (contractFQN : Option String)
    (deployedBytecode : Bytecode) (versions : List String) (e : VerifyError)
    (h : namedOrInferredInformation env network contractFQN deployedBytecode
      versions = .error e) :
    e.isCompilerVersionsMismatch = false := by
  unfold namedOrInferredInformation at h
  repeat' split at h
  all_goals try (rw [Except.error.injEq] at h; subst h)
  all_goals simp_all [VerifyError.isCompilerVersionsMismatch]

/-- No error thrown by the get-contract-information subtask is a
`CompilerVersionsMismatchError`. -/
lemma getContractInformation_error_not_cvm (env : ContractInfoEnv)
    (network : String) (contractFQN : Option String)
    (deployedBytecode : Bytecode) (versions : List String) (e : VerifyError)
    (h : getContractInformation env network contractFQN deployedBytecode
      versions = .error e) :
    e.isCompilerVersionsMismatch = false := by
  unfold getContractInformation at h
  split at h
  · next heq =>
    rw [Except.error.injEq] at h
    subst h
    exact namedOrInferredInformation_error_not_cvm _ _ _ _ _ _ heq
  · split at h
    · rw [Except.error.injEq] at h
      subst h
      rfl
    · exact absurd h (by simp)

/-- No error thrown by the minimal-input reducer is a
`CompilerVersionsMismatchError`. -/
lemma getMinimalInput_error_not_cvm (env : MinimalInputEnv) (s : String)
    (e : VerifyError) (h : getMinimalInput env s = .error e) :
    e.isCompilerVersionsMismatch = false := by
  simp only [getMinimalInput] at h
  split at h
  · rw [Except.error.injEq] at h
    subst h
    rfl
  · exact absurd h (by simp)

/-- No error thrown by a submission attempt is a
`CompilerVersionsMismatchError`. -/
lemma attemptVerification_error_not_cvm (kind : InputKind)
    (env : AttemptEnv) (e : VerifyError)
    (h : (attemptVerification kind env).2 = .error e) :
    e.isCompilerVersionsMismatch = false := by
  unfold attemptVerification at h
  split at h
  · rw [Except.error.injEq] at h
    subst h
    rfl
  · exact absurd h (by simp)

/-- The two-stage submission never produces a
`CompilerVersionsMismatchError`. -/
lemma submissionStage_not_cvm (env : OrchEnv)
    (info : ExtendedContractInformation) :
    outcomeIsCompilerVersionsMismatch (submissionStage env info).2 = false := by
  unfold submissionStage
  split
  · next e heq =>
    simpa [outcomeIsCompilerVersionsMismatch] using
      attemptVerification_error_not_cvm _ _ _ heq
  · split
    · simp [outcomeIsCompilerVersionsMismatch]
    · split
      · next e heq =>
        simpa [outcomeIsCompilerVersionsMismatch] using
          attemptVerification_error_not_cvm _ _ _ heq
      · split
        · simp [outcomeIsCompilerVersionsMismatch]
        · simp [outcomeIsCompilerVersionsMismatch,
            VerifyError.isCompilerVersionsMismatch]

/-- The stage after the compiler-version check never produces a
`CompilerVersionsMismatchError`. -/
lemma contractStage_not_cvm (env : OrchEnv) (args : VerificationArgs) :
    outcomeIsCompilerVersionsMismatch (contractStage env args).2 = false := by
  unfold contractStage
  split
  · next e heq =>
    simpa [outcomeIsCompilerVersionsMismatch] using
      getContractInformation_error_not_cvm _ _ _ _ _ _ heq
  · split
    · next e heq =>
      simpa [outcomeIsCompilerVersionsMismatch] using
        getMinimalInput_error_not_cvm _ _ _ heq
    · split
      · simp [outcomeIsCompilerVersionsMismatch,
          VerifyError.isCompilerVersionsMismatch]
      · exact submissionStage_not_cvm env _

/-- The trace of the post-check stage always records the contract
resolution first. -/
lemma contractStage_events_shape (env : OrchEnv) (args : VerificationArgs) :
    ∃ rest, (contractStage env args).1 = OEvent.contractResolution :: rest := by
  unfold contractStage
  repeat' split
  all_goals exact ⟨_, rfl⟩

/-- C3: a run that passes argument resolution and is not already verified
throws `CompilerVersionsMismatchError` exactly when the set of compiler
versions matching the deployed bytecode is empty and the bytecode is not
OVM-flagged; with OVM-flagged bytecode an empty match set does not abort
the run — it continues into contract resolution. -/
theorem compiler_versions_mismatch_exactly (env : OrchEnv)
    (args : VerificationArgs)
    (hres : resolveArguments env.resolveEnv env.args = .ok args)
    (hver : env.isVerified = false) :
    (outcomeIsCompilerVersionsMismatch (verifyEtherscan env).2 = true ↔
      ((env.deployedBytecode.getMatchingVersions
          env.configCompilerVersions).length = 0 ∧
        env.deployedBytecode.isOvm = false)) ∧
    (((env.deployedBytecode.getMatchingVersions
          env.configCompilerVersions).length = 0 →
      env.deployedBytecode.isOvm = true →
      OEvent.contractResolution ∈ (verifyEtherscan env).1)) := by
  have hrw : verifyEtherscan env = afterResolve env args := by
    unfold verifyEtherscan
    rw [hres]
  rw [hrw]
  unfold afterResolve
  constructor
  · cases hcond : ((env.deployedBytecode.getMatchingVersions
        env.configCompilerVersions).length == 0 &&
        !env.deployedBytecode.isOvm) with
    | true =>
      simp only [hver, Bool.false_eq_true, if_false, hcond, if_true]
      constructor
      · intro _
        simpa using hcond
      · intro _
        simp [outcomeIsCompilerVersionsMismatch,
          VerifyError.isCompilerVersionsMismatch]
    | false =>
      simp only [hver, Bool.false_eq_true, if_false, hcond]
      rw [contractStage_not_cvm env args]
      constructor
      · intro hfalse
        exact absurd hfalse (by simp)
      · intro hboth
        have hcontra : ((env.deployedBytecode.getMatchingVersions
            env.configCompilerVersions).length == 0 &&
            !env.deployedBytecode.isOvm) = true := by
          simp [hboth.1, hboth.2]
        rw [hcond] at hcontra
        exact absurd hcontra (by simp)
  · intro hlen hovm
    have hcond : ((env.deployedBytecode.getMatchingVersions
        env.configCompilerVersions).length == 0 &&
        !env.deployedBytecode.isOvm) = false := by
      simp [hlen, hovm]
    simp only [hver, Bool.false_eq_true, if_false, hcond]
    obtain ⟨rest, hrest⟩ := contractStage_events_shape env args
    rw [hrest]
    simp

/-- C3 witness: with no configured version matching and non-OVM bytecode
the run throws a `CompilerVersionsMismatchError`; with OVM bytecode the
same empty match set lets the run continue into contract resolution. -/
theorem compiler_versions_mismatch_exactly_witness :
    outcomeIsCompilerVersionsMismatch (verifyEtherscan envM).2 = true ∧
    OEvent.contractResolution ∈ (verifyEtherscan envO).1 :=
  ⟨(compiler_versions_mismatch_exactly envM parsedArgsW (by rfl) rfl).1.mpr
      ⟨by decide, rfl⟩,
   (compiler_versions_mismatch_exactly envO parsedArgsW (by rfl) rfl).2
      (by decide) rfl⟩

/-- C1: every run that reaches submission first attempts verification with
the minimal compiler input; exactly when that attempt reports failure, one
further attempt is made with the full compiler input; a success at either
stage ends the run immediately with that single (respectively those two)
submissions; a second reported failure throws
`ContractVerificationFailedError` carrying the last service message and
the undetectable libraries; an unrecognized status message instead throws
without any further attempt. -/
theorem etherscan_retry_policy (env : OrchEnv) (args : VerificationArgs)
    (info : ExtendedContractInformation) (minimalInput : CompilerInput)
    (encoded : String)
    (hres : resolveArguments env.resolveEnv env.args = .ok args)
    (hver : env.isVerified = false)
    (hmatch : (((env.deployedBytecode.getMatchingVersions
        env.configCompilerVersions).length == 0) &&
      !env.deployedBytecode.isOvm) = false)
    (hinfo : getContractInformation env.contractInfoEnv env.networkName
      args.contractFQN env.deployedBytecode
      (env.deployedBytecode.getMatchingVersions env.configCompilerVersions) =
      .ok info)
    (hmin : getMinimalInput env.minimalEnv info.sourceName = .ok minimalInput)
    (henc : env.encodeResult = .ok encoded) :
    ((env.minimalAttempt.status.isFailure ||
        env.minimalAttempt.status.isSuccess) = false →
      (verifyEtherscan env).2 =
        .error (.verificationAPIUnexpectedMessage
          env.minimalAttempt.status.message) ∧
      submissions (verifyEtherscan env).1 = [InputKind.minimal]) ∧
    (env.minimalAttempt.status.isSuccess = true →
      (verifyEtherscan env).2 = .ok () ∧
      submissions (verifyEtherscan env).1 = [InputKind.minimal]) ∧
    (env.minimalAttempt.status.isFailure = true →
      env.minimalAttempt.status.isSuccess = false →
      submissions (verifyEtherscan env).1 =
        [InputKind.minimal, InputKind.full] ∧
      ((env.fullAttempt.status.isFailure ||
          env.fullAttempt.status.isSuccess) = false →
        (verifyEtherscan env).2 =
          .error (.verificationAPIUnexpectedMessage
            env.fullAttempt.status.message)) ∧
      (env.fullAttempt.status.isSuccess = true →
        (verifyEtherscan env).2 = .ok ()) ∧
      (env.fullAttempt.status.isFailure = true →
        env.fullAttempt.status.isSuccess = false →
        (verifyEtherscan env).2 =
          .error (.contractVerificationFailed
            env.fullAttempt.status.message info.undetectableLibraries))) := by
  have hrw : verifyEtherscan env =
      (OEvent.isVerifiedQuery :: OEvent.bytecodeFetch ::
        OEvent.contractResolution :: (submissionStage env info).1,
       (submissionStage env info).2) := by
    have h1 : verifyEtherscan env = afterResolve env args := by
      unfold verifyEtherscan
      rw [hres]
    rw [h1]
    unfold afterResolve contractStage
    simp only [hver, Bool.false_eq_true, if_false, hmatch, hinfo, hmin, henc]
  have hout : (verifyEtherscan env).2 = (submissionStage env info).2 := by
    rw [hrw]
  have hsubs : submissions (verifyEtherscan env).1 =
      submissions (submissionStage env info).1 := by
    rw [hrw]
    simp [submissions]
  refine ⟨fun h1 => ?_, fun h2 => ?_, fun hf hs => ?_⟩
  · rw [hout, hsubs]
    constructor
    · simp [submissionStage, attemptVerification, h1]
    · simp [submissionStage, attemptVerification, h1, attemptEvents,
        submissions]
  · rw [hout, hsubs]
    constructor
    · simp [submissionStage, attemptVerification, h2]
    · simp [submissionStage, attemptVerification, h2, attemptEvents,
        submissions]
  · rw [hout, hsubs]
    refine ⟨?_, fun h1 => ?_, fun h2 => ?_, fun hf2 hs2 => ?_⟩
    · simp [submissionStage, attemptVerification, hf, hs, submissions,
        attemptEvents]
      split
      · rfl
      · split <;> rfl
    · simp [submissionStage, attemptVerification, hf, hs, h1]
    · simp [submissionStage, attemptVerification, hf, hs, h2]
    · simp [submissionStage, attemptVerification, hf, hs, hf2, hs2]

/-- C1 witness: a run whose minimal-input attempt reports failure and
whose full-input attempt succeeds submits exactly twice — minimal first,
then full — and ends successfully. -/
theorem etherscan_retry_policy_witness :
    submissions (verifyEtherscan envW).1 =
      [InputKind.minimal, InputKind.full] ∧
    (verifyEtherscan envW).2 = .ok () := by
  have h := etherscan_retry_policy envW parsedArgsW contractInfoW inputW ""
    (by rfl) rfl (by rfl) (by rfl) (by rfl) rfl
  have h3 := h.2.2 rfl rfl
  exact ⟨h3.1, h3.2.2.1 rfl⟩

/-- C5 witness: the service message "Unknown response" matches neither
pattern and produces the unexpected-message error after one poll. -/
theorem attempt_unexpected_message_witness :
    (attemptVerification .minimal
      { guid := "guid-3", status := statusOddW }).2 =
      .error (.verificationAPIUnexpectedMessage "Unknown response") ∧
    (attemptVerification .minimal
      { guid := "guid-3", status := statusOddW }).1.countP isPoll = 1 :=
  attempt_unexpected_message .minimal _ (by rfl)
